import Mathlib

/-!
Verification of the record-normalizer stage of the healthcare screening
outreach pipeline (script 01_data_cleaning.py). The pandas column passes
are embedded as per-cell functions over an untyped cell value; the whole
pass is a map-filter-map-repair pipeline over a list of rows.
-/

namespace Screening

/-- An untyped cell of the raw table, as pandas read_csv presents it:
a missing value (NaN), a string, or a numeric value. Numeric values in
this data are integral (the 0/1 indicator encodings); non-integral
numerics could only arise from strings that the downstream 0/1 lookup
sends to the same default as a failed coercion, so they are folded into
the missing case by the numeric coercion below. -/
inductive Cell where
  | null : Cell
  | str : String → Cell
  | num : Int → Cell
deriving DecidableEq, Repr

/-- A raw input row, with the fixed header of the call-center export. -/
structure RawRecord where
  patient_id : Cell
  screening_type : Cell
  screening_completed_ind : Cell
  screening_date : Cell
  latest_call_date : Cell
  reached_ind : Cell
deriving DecidableEq, Repr

/-- A calendar date, the embedding of a non-NaT datetime64 cell. -/
structure Date where
  year : Nat
  month : Nat
  day : Nat
deriving DecidableEq, Repr

/-- A normalized output row: indicator columns have become text labels,
date columns have become optional dates (none embeds NaT, written as an
empty field in the output file). -/
structure CleanRecord where
  patient_id : Cell
  screening_type : Cell
  screening_completed_ind : String
  screening_date : Option Date
  latest_call_date : Option Date
  reached_ind : String
deriving DecidableEq, Repr

/-- VALID_SCREENING_TYPES from the configuration block. -/
def VALID_SCREENING_TYPES : List String := ["BCS", "COL", "EED", "CBP", "OMW"]

/-- Python str.strip: drop whitespace from both ends. -/
def pyStrip (s : String) : String :=
  String.mk (((s.data.dropWhile Char.isWhitespace).reverse.dropWhile Char.isWhitespace).reverse)

/-- Python str.upper (ASCII range, which covers this data). -/
def pyUpper (s : String) : String :=
  String.mk (s.data.map Char.toUpper)

/-- The pandas column pass df.screening_type.str.strip().str.upper():
the .str accessor yields NaN on any non-string element, and NaN stays NaN. -/
def strStripUpper (c : Cell) : Cell :=
  match c with
  | Cell.str s => Cell.str (pyUpper (pyStrip s))
  | Cell.null => Cell.null
  | Cell.num _ => Cell.null

/-- The pandas membership test isin(VALID_SCREENING_TYPES): false on NaN
and on non-string cells. -/
def isin_valid_types (c : Cell) : Bool :=
  match c with
  | Cell.str s => VALID_SCREENING_TYPES.contains s
  | _ => false

/-- Digits of a decimal literal to a natural number. -/
def digitsToNat (cs : List Char) : Nat :=
  cs.foldl (fun a c => a * 10 + (c.toNat - 48)) 0

/-- All characters are decimal digits. -/
def allDigits (cs : List Char) : Bool :=
  cs.all Char.isDigit

/-- Split a character list on a separator character. -/
def splitOnChar (sep : Char) : List Char → List (List Char)
  | [] => [[]]
  | c :: rest =>
    let r := splitOnChar sep rest
    if c = sep then [] :: r
    else
      match r with
      | h :: t => (c :: h) :: t
      | [] => [[c]]

/-- Embedding of pd.to_numeric string parsing for the shapes this
pipeline can observe: optional surrounding whitespace, optional sign,
decimal digits, optionally a fraction part; a fraction of zeros keeps
the integral value, and every other spelling is coerced to NaN (a
non-integral numeric would be sent to the same default by the 0/1
lookup that consumes this value, see Cell). -/
def parse_numeric (s : String) : Option Int :=
  let cs := (pyStrip s).data
  let signBody : Int × List Char :=
    match cs with
    | '+' :: r => (1, r)
    | '-' :: r => (-1, r)
    | r => (1, r)
  match splitOnChar '.' signBody.2 with
  | [w] =>
    if w ≠ [] ∧ allDigits w = true then some (signBody.1 * (digitsToNat w : Int)) else none
  | [w, f] =>
    if w ≠ [] ∧ allDigits w = true ∧ allDigits f = true ∧ f.all (fun c => c = '0') = true then
      some (signBody.1 * (digitsToNat w : Int))
    else none
  | _ => none

/-- pd.to_numeric(col, errors = coerce): numbers pass through, strings
are parsed or become NaN, NaN stays NaN. -/
def to_numeric (c : Cell) : Cell :=
  match c with
  | Cell.num n => Cell.num n
  | Cell.str s =>
    match parse_numeric s with
    | some n => Cell.num n
    | none => Cell.null
  | Cell.null => Cell.null

/-- Gregorian leap year. -/
def is_leap (y : Nat) : Bool :=
  (y % 4 = 0 && y % 100 ≠ 0) || y % 400 = 0

/-- Days in a month of a given year. -/
def daysInMonth (y m : Nat) : Nat :=
  if m = 2 then (if is_leap y then 29 else 28)
  else if m = 4 ∨ m = 6 ∨ m = 9 ∨ m = 11 then 30 else 31

/-- A structurally parsed y-m-d triple is a real calendar date. -/
def dateValid (d : Date) : Bool :=
  decide (1 ≤ d.month) && decide (d.month ≤ 12) &&
  decide (1 ≤ d.day) && decide (d.day ≤ daysInMonth d.year d.month)

/-- Embedding of strptime with format %Y-%m-%d as pd.to_datetime applies
it: three dash-separated decimal fields (year up to 4 digits, month and
day up to 2), which must form a valid calendar date; anything else fails. -/
def parse_date (s : String) : Option Date :=
  match splitOnChar '-' s.data with
  | [ys, ms, ds] =>
    if ys ≠ [] ∧ ys.length ≤ 4 ∧ allDigits ys = true ∧
       ms ≠ [] ∧ ms.length ≤ 2 ∧ allDigits ms = true ∧
       ds ≠ [] ∧ ds.length ≤ 2 ∧ allDigits ds = true then
      if dateValid ⟨digitsToNat ys, digitsToNat ms, digitsToNat ds⟩ = true then
        some ⟨digitsToNat ys, digitsToNat ms, digitsToNat ds⟩
      else none
    else none
  | _ => none

/-- pd.to_datetime(col, errors = coerce, format = %Y-%m-%d): strings are
parsed or become NaT, every non-string cell becomes NaT. -/
def to_datetime (c : Cell) : Option Date :=
  match c with
  | Cell.str s => parse_date s
  | _ => none

/-- The replace step with completion_mapping: string and numeric literal
encodings of 0 and 1, plus the anomalous s and S, become the binary
indicator; every other value is left unchanged. -/
def completion_replace (c : Cell) : Cell :=
  if c = Cell.str "0" ∨ c = Cell.str "0.0" ∨ c = Cell.num 0 then Cell.num 0
  else if c = Cell.str "1" ∨ c = Cell.str "1.0" ∨ c = Cell.num 1 ∨
          c = Cell.str "s" ∨ c = Cell.str "S" then Cell.num 1
  else c

/-- The map step for screening_completed_ind: 0 and 1 become the text
labels, everything else becomes NaN. -/
def completion_text_map (c : Cell) : Option String :=
  if c = Cell.num 0 then some "not completed"
  else if c = Cell.num 1 then some "completed"
  else none

/-- The full screening_completed_ind column pass: replace, to_numeric,
map to text, fillna with the default label. -/
def normalize_completion (c : Cell) : String :=
  (completion_text_map (to_numeric (completion_replace c))).getD "not eligible"

/-- The replace step with reach_mapping: 0/1 literal encodings plus the
provider literal, everything else unchanged. -/
def reach_replace (c : Cell) : Cell :=
  if c = Cell.str "0" ∨ c = Cell.str "0.0" ∨ c = Cell.num 0 then Cell.num 0
  else if c = Cell.str "1" ∨ c = Cell.str "1.0" ∨ c = Cell.num 1 ∨
          c = Cell.str "1 and reached" then Cell.num 1
  else c

/-- The map step for reached_ind: 0 and 1 become the text labels,
everything else becomes NaN. -/
def reach_text_map (c : Cell) : Option String :=
  if c = Cell.num 0 then some "not reached"
  else if c = Cell.num 1 then some "reached"
  else none

/-- The full reached_ind column pass: replace, to_numeric, map to text,
fillna with the default label. -/
def normalize_reach (c : Cell) : String :=
  (reach_text_map (to_numeric (reach_replace c))).getD "not called"

/-- Step 2.2 first line: overwrite screening_type with its stripped,
upper-cased form. -/
def stripTypeRow (r : RawRecord) : RawRecord :=
  { r with screening_type := strStripUpper r.screening_type }

/-- Steps 2.3 to 2.6 applied to one already-filtered row: the column
passes are element-wise and independent, so they compose per row. -/
def normalizeRow (r : RawRecord) : CleanRecord :=
  { patient_id := r.patient_id
    screening_type := r.screening_type
    screening_completed_ind := normalize_completion r.screening_completed_ind
    screening_date := to_datetime r.screening_date
    latest_call_date := to_datetime r.latest_call_date
    reached_ind := normalize_reach r.reached_ind }

/-- A row violating the cross-field consistency rule. -/
def inconsistent (r : CleanRecord) : Bool :=
  r.reached_ind == "not called" && r.latest_call_date.isSome

/-- The repair assignment df.loc with reached_ind equal to the not
called label: clear latest_call_date on every such row. -/
def fixNotCalled (r : CleanRecord) : CleanRecord :=
  if r.reached_ind = "not called" then { r with latest_call_date := none } else r

/-- The guarded consistency repair: the assignment runs only when at
least one inconsistency was counted. -/
def repairConsistency (rs : List CleanRecord) : List CleanRecord :=
  if 0 < rs.countP (fun r => inconsistent r) then rs.map fixNotCalled else rs

/-- The whole normalization pass of script 01: strip and upper-case
screening_type, filter by the allow-list, normalize the indicator and
date columns, repair the consistency invariant. -/
def cleanData (raw : List RawRecord) : List CleanRecord :=
  repairConsistency
    (((raw.map stripTypeRow).filter (fun r => isin_valid_types r.screening_type)).map normalizeRow)

/-- records_removed of step 2.2: row count before the allow-list filter
minus row count after it. -/
def records_removed (raw : List RawRecord) : Nat :=
  (raw.map stripTypeRow).length -
    ((raw.map stripTypeRow).filter (fun r => isin_valid_types r.screening_type)).length

/-- The job around the pass: a missing input file raises before any
processing (Except.error); otherwise the full cleaned table is written.
The Option input embeds existence of the raw file. -/
def run_job (input : Option (List RawRecord)) : Except String (List CleanRecord) :=
  match input with
  | none => Except.error "Raw data file not found"
  | some raw => Except.ok (cleanData raw)

/-- Serialization of a normalized row back to a raw row, as to_csv
writes it and read_csv reads it back: labels become strings, dates
become zero-padded y-m-d strings, NaT becomes an empty cell. -/
def pad2 (n : Nat) : String :=
  if n < 10 then String.mk ('0' :: (Nat.toDigits 10 n)) else String.mk (Nat.toDigits 10 n)

/-- Zero-pad a year to four digits. -/
def pad4 (n : Nat) : String :=
  if n < 10 then String.mk ('0' :: '0' :: '0' :: (Nat.toDigits 10 n))
  else if n < 100 then String.mk ('0' :: '0' :: (Nat.toDigits 10 n))
  else if n < 1000 then String.mk ('0' :: (Nat.toDigits 10 n))
  else String.mk (Nat.toDigits 10 n)

/-- A date cell as it appears in the written output file. -/
def dateToCell (d : Option Date) : Cell :=
  match d with
  | none => Cell.null
  | some d => Cell.str (pad4 d.year ++ "-" ++ pad2 d.month ++ "-" ++ pad2 d.day)

/-- The round trip through the output file: the raw row a second run of
the script would read for a given normalized row. -/
def toRawRecord (r : CleanRecord) : RawRecord :=
  { patient_id := r.patient_id
    screening_type := r.screening_type
    screening_completed_ind := Cell.str r.screening_completed_ind
    screening_date := dateToCell r.screening_date
    latest_call_date := dateToCell r.latest_call_date
    reached_ind := Cell.str r.reached_ind }

/-! ### Concrete rows used by the testable properties of the spec -/

/-- Row with reached_ind the string 0 and a present call date. -/
def exReachedZero : RawRecord :=
  ⟨Cell.num 1, Cell.str "BCS", Cell.str "1", Cell.null, Cell.str "2025-03-01", Cell.str "0"⟩

/-- Row whose reached_ind is missing, with a present call date. -/
def exNotCalled : RawRecord :=
  ⟨Cell.num 2, Cell.str "BCS", Cell.null, Cell.null, Cell.str "2025-03-01", Cell.null⟩

/-- Row with the disallowed screening type a1c in lower case. -/
def exA1C : RawRecord :=
  ⟨Cell.num 3, Cell.str "a1c", Cell.null, Cell.null, Cell.null, Cell.null⟩

/-- Row with an allowed screening type written padded and in lower case. -/
def exBcsPadded : RawRecord :=
  ⟨Cell.num 4, Cell.str " bcs ", Cell.null, Cell.null, Cell.null, Cell.null⟩

/-- Row with the anomalous s completion indicator. -/
def exAnomalousS : RawRecord :=
  ⟨Cell.num 5, Cell.str "COL", Cell.str "s", Cell.null, Cell.null, Cell.str "1"⟩

/-- Row with unparsable date strings in both date fields. -/
def exBadDates : RawRecord :=
  ⟨Cell.num 6, Cell.str "EED", Cell.str "1", Cell.str "N/A", Cell.str "N/A", Cell.str "1"⟩

/-- Row with a null patient_id and an allowed screening type. -/
def exNullPid : RawRecord :=
  ⟨Cell.null, Cell.str "BCS", Cell.null, Cell.null, Cell.null, Cell.null⟩

/-- Row with a null screening_type. -/
def exNullType : RawRecord :=
  ⟨Cell.num 7, Cell.null, Cell.str "1", Cell.null, Cell.null, Cell.str "1"⟩

/-- Fully populated well-formed row. -/
def exCompleted : RawRecord :=
  ⟨Cell.num 8, Cell.str "BCS", Cell.str "1", Cell.str "2025-01-15", Cell.str "2025-03-01", Cell.str "1"⟩

/-! ### Structural lemmas about the pass -/

theorem fixNotCalled_patient_id (r : CleanRecord) :
    (fixNotCalled r).patient_id = r.patient_id := by
  unfold fixNotCalled; split <;> rfl

theorem fixNotCalled_screening_type (r : CleanRecord) :
    (fixNotCalled r).screening_type = r.screening_type := by
  unfold fixNotCalled; split <;> rfl

theorem fixNotCalled_completed (r : CleanRecord) :
    (fixNotCalled r).screening_completed_ind = r.screening_completed_ind := by
  unfold fixNotCalled; split <;> rfl

theorem fixNotCalled_reached (r : CleanRecord) :
    (fixNotCalled r).reached_ind = r.reached_ind := by
  unfold fixNotCalled; split <;> rfl

theorem fixNotCalled_of_consistent (r : CleanRecord) (h : inconsistent r = false) :
    fixNotCalled r = r := by
  unfold fixNotCalled
  split_ifs with hr
  · have hd : r.latest_call_date = none := by
      unfold inconsistent at h
      simp [hr] at h
      exact Option.not_isSome_iff_eq_none.mp (by simp [h])
    cases r
    simp_all
  · rfl

theorem repairConsistency_eq_map (rs : List CleanRecord) :
    repairConsistency rs = rs.map fixNotCalled := by
  unfold repairConsistency
  split_ifs with h
  · rfl
  · have h0 : rs.countP (fun r => inconsistent r) = 0 := Nat.eq_zero_of_not_pos h
    have hall := List.countP_eq_zero.mp h0
    have hmap : rs.map fixNotCalled = rs := by
      conv_rhs => rw [← List.map_id rs]
      exact List.map_congr_left fun a ha =>
        fixNotCalled_of_consistent a (by simpa using hall a ha)
    exact hmap.symm

theorem cleanData_eq (raw : List RawRecord) :
    cleanData raw =
      ((raw.map stripTypeRow).filter (fun r => isin_valid_types r.screening_type)).map
        (fun q => fixNotCalled (normalizeRow q)) := by
  unfold cleanData
  rw [repairConsistency_eq_map, List.map_map]
  rfl

theorem mem_cleanData {raw : List RawRecord} {r : CleanRecord} (h : r ∈ cleanData raw) :
    ∃ q, isin_valid_types q.screening_type = true ∧ r = fixNotCalled (normalizeRow q) := by
  rw [cleanData_eq] at h
  rcases List.mem_map.mp h with ⟨q, hq, rfl⟩
  exact ⟨q, (List.mem_filter.mp hq).2, rfl⟩

theorem completion_label_mem (c : Cell) :
    normalize_completion c ∈ (["completed", "not completed", "not eligible"] : List String) := by
  unfold normalize_completion completion_text_map
  split_ifs <;> simp

theorem reach_label_mem (c : Cell) :
    normalize_reach c ∈ (["reached", "not reached", "not called"] : List String) := by
  unfold normalize_reach reach_text_map
  split_ifs <;> simp

theorem fixNotCalled_not_called (r : CleanRecord)
    (h : (fixNotCalled r).reached_ind = "not called") :
    (fixNotCalled r).latest_call_date = none := by
  unfold fixNotCalled at h ⊢
  split_ifs at h ⊢ with hr
  · rfl
  · exact absurd h hr

theorem cleanData_type_valid {raw : List RawRecord} {r : CleanRecord} (h : r ∈ cleanData raw) :
    isin_valid_types r.screening_type = true := by
  rcases mem_cleanData h with ⟨q, hq, rfl⟩
  rw [fixNotCalled_screening_type]
  exact hq

theorem strStripUpper_of_valid (c : Cell) (h : isin_valid_types c = true) :
    strStripUpper c = c := by
  cases c with
  | null => simp [isin_valid_types] at h
  | num n => simp [isin_valid_types] at h
  | str s =>
    have hs : s ∈ VALID_SCREENING_TYPES := by
      simpa [isin_valid_types] using h
    fin_cases hs <;> decide

theorem completion_label_resets (s : String)
    (h : s ∈ (["completed", "not completed", "not eligible"] : List String)) :
    normalize_completion (Cell.str s) = "not eligible" := by
  fin_cases h <;> decide

theorem reach_label_resets (s : String)
    (h : s ∈ (["reached", "not reached", "not called"] : List String)) :
    normalize_reach (Cell.str s) = "not called" := by
  fin_cases h <;> decide

theorem parse_date_valid (s : String) (d : Date) (h : parse_date s = some d) :
    dateValid d = true := by
  unfold parse_date at h
  split at h
  · split_ifs at h with h1 h2
    · obtain rfl := Option.some.inj h
      exact h2
  · exact Option.noConfusion h

theorem length_sub_countP {α : Type} (p : α → Bool) (l : List α) :
    l.length - l.countP p = l.countP (fun a => !(p a)) := by
  induction l with
  | nil => rfl
  | cons a t ih =>
    have hle : t.countP p ≤ t.length := List.countP_le_length p
    rw [List.countP_cons, List.countP_cons, List.length_cons]
    cases hpa : p a <;> simp [hpa] <;> omega

theorem records_removed_eq_countP (raw : List RawRecord) :
    records_removed raw =
      raw.countP (fun r => !(isin_valid_types (strStripUpper r.screening_type))) := by
  unfold records_removed
  rw [← List.countP_eq_length_filter, List.length_map, List.countP_map, length_sub_countP]
  rfl

theorem cleanData_length (raw : List RawRecord) :
    (cleanData raw).length = raw.length - records_removed raw := by
  rw [cleanData_eq, List.length_map]
  unfold records_removed
  rw [List.length_map]
  have hle : ((raw.map stripTypeRow).filter (fun r => isin_valid_types r.screening_type)).length ≤
      raw.length := by
    simpa using List.length_filter_le (fun r => isin_valid_types r.screening_type)
      (raw.map stripTypeRow)
  omega

theorem second_pass_eq (rs : List CleanRecord)
    (hval : ∀ r ∈ rs, isin_valid_types r.screening_type = true)
    (hcomp : ∀ r ∈ rs,
      r.screening_completed_ind ∈ (["completed", "not completed", "not eligible"] : List String))
    (hreach : ∀ r ∈ rs,
      r.reached_ind ∈ (["reached", "not reached", "not called"] : List String)) :
    cleanData (rs.map toRawRecord) =
      rs.map (fun r =>
        { patient_id := r.patient_id
          screening_type := r.screening_type
          screening_completed_ind := "not eligible"
          screening_date := to_datetime (dateToCell r.screening_date)
          latest_call_date := none
          reached_ind := "not called" }) := by
  have hstrip : (rs.map toRawRecord).map stripTypeRow = rs.map toRawRecord := by
    rw [List.map_map]
    refine List.map_congr_left fun r hr => ?_
    show stripTypeRow (toRawRecord r) = toRawRecord r
    unfold stripTypeRow
    rw [show (toRawRecord r).screening_type = r.screening_type from rfl,
      strStripUpper_of_valid _ (hval r hr)]
    rfl
  have hfil : (rs.map toRawRecord).filter (fun r => isin_valid_types r.screening_type) =
      rs.map toRawRecord :=
    List.filter_eq_self.mpr (by
      intro a ha
      rcases List.mem_map.mp ha with ⟨r, hr, rfl⟩
      exact hval r hr)
  rw [cleanData_eq, hstrip, hfil, List.map_map]
  refine List.map_congr_left fun r hr => ?_
  show fixNotCalled (normalizeRow (toRawRecord r)) = _
  have hc := completion_label_resets _ (hcomp r hr)
  have hr2 := reach_label_resets _ (hreach r hr)
  simp [normalizeRow, toRawRecord, fixNotCalled, hc, hr2]

/-! ### Claim theorems -/

/-- C1 counterexample: at the concrete row of the claim, with reached_ind
the string 0 and latest_call_date 2025-03-01, the pass does not produce
contact status not called with an empty date; it produces not reached and
keeps the date, because the string 0 is a recognized binary encoding. -/
theorem c1_reached_zero_counterexample :
    (cleanData [exReachedZero]).map (fun r => (r.reached_ind, r.latest_call_date)) ≠
      [("not called", (none : Option Date))] ∧
    (cleanData [exReachedZero]).map (fun r => (r.reached_ind, r.latest_call_date)) =
      [("not reached", some ⟨2025, 3, 1⟩)] := by
  decide

/-- C1 (amended): every output record with contact status not called has
an absent latest call date; the repair clears the date of every not
called record; a row with reached_ind the string 0 comes out not reached
with its call date retained, and only a row whose reached_ind is not
recognized as 0/1 comes out not called with the date cleared. -/
theorem c1_not_called_invariant_amended :
    (∀ raw : List RawRecord, ∀ r ∈ cleanData raw,
        r.reached_ind = "not called" → r.latest_call_date = none) ∧
    (∀ rs : List CleanRecord, repairConsistency rs = rs.map fixNotCalled) ∧
    (∀ r : CleanRecord, r.reached_ind = "not called" →
        (fixNotCalled r).latest_call_date = none) ∧
    (cleanData [exReachedZero]).map (fun r => (r.reached_ind, r.latest_call_date)) =
      [("not reached", some ⟨2025, 3, 1⟩)] ∧
    (cleanData [exNotCalled]).map (fun r => (r.reached_ind, r.latest_call_date)) =
      [("not called", none)] := by
  refine ⟨fun raw r h hr => ?_, repairConsistency_eq_map, fun r hr => ?_, by decide, by decide⟩
  · rcases mem_cleanData h with ⟨q, hq, rfl⟩
    exact fixNotCalled_not_called _ hr
  · simp [fixNotCalled, hr]

/-- C1 witness: the amended invariant applied to the concrete table with
a missing reached_ind and a present call date. -/
theorem c1_not_called_invariant_amended_witness :
    (⟨Cell.num 2, Cell.str "BCS", "not eligible", none, none, "not called"⟩ :
      CleanRecord).latest_call_date = none :=
  c1_not_called_invariant_amended.1 [exNotCalled]
    ⟨Cell.num 2, Cell.str "BCS", "not eligible", none, none, "not called"⟩
    (by decide) (by decide)

/-- C2 counterexample: running the full pass on the serialized output of
a first pass does not reproduce that output; the row with a completed
indicator comes back not eligible. -/
theorem c2_idempotence_counterexample :
    cleanData ((cleanData [exCompleted]).map toRawRecord) ≠ cleanData [exCompleted] := by
  decide

/-- C2 (amended): rerunning the pass on its serialized output drops no
record, but it is not idempotent on the values: every completion label
becomes not eligible, every contact label becomes not called, and every
latest call date is cleared. -/
theorem c2_second_pass_amended :
    ∀ raw : List RawRecord,
      (cleanData ((cleanData raw).map toRawRecord)).length = (cleanData raw).length ∧
      ∀ r ∈ cleanData ((cleanData raw).map toRawRecord),
        r.screening_completed_ind = "not eligible" ∧ r.reached_ind = "not called" ∧
          r.latest_call_date = none := by
  intro raw
  have hval : ∀ r ∈ cleanData raw, isin_valid_types r.screening_type = true :=
    fun r h => cleanData_type_valid h
  have hcomp : ∀ r ∈ cleanData raw,
      r.screening_completed_ind ∈ (["completed", "not completed", "not eligible"] : List String) := by
    intro r h
    rcases mem_cleanData h with ⟨q, hq, rfl⟩
    rw [fixNotCalled_completed]
    exact completion_label_mem _
  have hreach : ∀ r ∈ cleanData raw,
      r.reached_ind ∈ (["reached", "not reached", "not called"] : List String) := by
    intro r h
    rcases mem_cleanData h with ⟨q, hq, rfl⟩
    rw [fixNotCalled_reached]
    exact reach_label_mem _
  rw [second_pass_eq _ hval hcomp hreach]
  refine ⟨List.length_map _ _, fun r h => ?_⟩
  rcases List.mem_map.mp h with ⟨x, hx, rfl⟩
  exact ⟨rfl, rfl, rfl⟩

/-- C2 witness: the amended statement applied to a one-row table and the
record its second pass produces. -/
theorem c2_second_pass_amended_witness :
    (cleanData ((cleanData [exCompleted]).map toRawRecord)).length =
      (cleanData [exCompleted]).length ∧
    ((⟨Cell.num 8, Cell.str "BCS", "not eligible", some ⟨2025, 1, 15⟩, none, "not called"⟩ :
        CleanRecord).screening_completed_ind = "not eligible" ∧
      (⟨Cell.num 8, Cell.str "BCS", "not eligible", some ⟨2025, 1, 15⟩, none, "not called"⟩ :
        CleanRecord).reached_ind = "not called" ∧
      (⟨Cell.num 8, Cell.str "BCS", "not eligible", some ⟨2025, 1, 15⟩, none, "not called"⟩ :
        CleanRecord).latest_call_date = none) :=
  ⟨(c2_second_pass_amended [exCompleted]).1,
    (c2_second_pass_amended [exCompleted]).2
      ⟨Cell.num 8, Cell.str "BCS", "not eligible", some ⟨2025, 1, 15⟩, none, "not called"⟩
      (by decide)⟩

/-- C3: every output record carries an allowed screening type; the test
happens after stripping and upper-casing; appending a row whose type
normalizes to A1C raises the removal count by exactly one, and a table
of just that row cleans to the empty table, while a padded lower-case
bcs row is kept as BCS. -/
theorem c3_screening_type_allowlist :
    (∀ raw : List RawRecord, ∀ r ∈ cleanData raw, isin_valid_types r.screening_type = true) ∧
    (∀ raw : List RawRecord, records_removed (raw ++ [exA1C]) = records_removed raw + 1) ∧
    cleanData [exA1C] = [] ∧
    (cleanData [exBcsPadded]).map (fun r => r.screening_type) = [Cell.str "BCS"] := by
  refine ⟨fun raw r h => cleanData_type_valid h, fun raw => ?_, by decide, by decide⟩
  have h1 : List.countP
      (fun r => !(isin_valid_types (strStripUpper r.screening_type))) [exA1C] = 1 := by decide
  rw [records_removed_eq_countP, records_removed_eq_countP, List.countP_append, h1]

/-- C3 witness: the allow-list invariant applied to the padded bcs table
and its concrete output record. -/
theorem c3_screening_type_allowlist_witness :
    isin_valid_types
      (⟨Cell.num 4, Cell.str "BCS", "not eligible", none, none, "not called"⟩ :
        CleanRecord).screening_type = true :=
  c3_screening_type_allowlist.1 [exBcsPadded]
    ⟨Cell.num 4, Cell.str "BCS", "not eligible", none, none, "not called"⟩ (by decide)

/-- C4: every output record carries one of the three completion labels
and one of the three contact labels, and a value the lookup leaves
unmapped resolves to the default label of its field. -/
theorem c4_tristate_labels :
    (∀ raw : List RawRecord, ∀ r ∈ cleanData raw,
        r.screening_completed_ind ∈ (["completed", "not completed", "not eligible"] : List String) ∧
        r.reached_ind ∈ (["reached", "not reached", "not called"] : List String)) ∧
    (∀ c : Cell, completion_text_map (to_numeric (completion_replace c)) = none →
        normalize_completion c = "not eligible") ∧
    (∀ c : Cell, reach_text_map (to_numeric (reach_replace c)) = none →
        normalize_reach c = "not called") := by
  refine ⟨fun raw r h => ?_, fun c h => ?_, fun c h => ?_⟩
  · rcases mem_cleanData h with ⟨q, hq, rfl⟩
    constructor
    · rw [fixNotCalled_completed]
      exact completion_label_mem _
    · rw [fixNotCalled_reached]
      exact reach_label_mem _
  · unfold normalize_completion
    rw [h]
    rfl
  · unfold normalize_reach
    rw [h]
    rfl

/-- C4 witness: the label invariant at a concrete output record and the
defaults at concrete unrecognized indicator values. -/
theorem c4_tristate_labels_witness :
    ((⟨Cell.num 8, Cell.str "BCS", "completed", some ⟨2025, 1, 15⟩, some ⟨2025, 3, 1⟩,
        "reached"⟩ : CleanRecord).screening_completed_ind ∈
      (["completed", "not completed", "not eligible"] : List String) ∧
      (⟨Cell.num 8, Cell.str "BCS", "completed", some ⟨2025, 1, 15⟩, some ⟨2025, 3, 1⟩,
        "reached"⟩ : CleanRecord).reached_ind ∈
        (["reached", "not reached", "not called"] : List String)) ∧
    normalize_completion (Cell.num 2) = "not eligible" ∧
    normalize_reach (Cell.str "maybe") = "not called" :=
  ⟨c4_tristate_labels.1 [exCompleted]
      ⟨Cell.num 8, Cell.str "BCS", "completed", some ⟨2025, 1, 15⟩, some ⟨2025, 3, 1⟩, "reached"⟩
      (by decide),
    c4_tristate_labels.2.1 (Cell.num 2) (by decide),
    c4_tristate_labels.2.2 (Cell.str "maybe") (by decide)⟩

/-- C5: the allow-list filter is the only operation that removes
records: the output length is the input length minus the removal count,
and the removal count is exactly the number of rows whose stripped,
upper-cased screening type is outside the allowed set. -/
theorem c5_row_count_invariant :
    ∀ raw : List RawRecord,
      (cleanData raw).length = raw.length - records_removed raw ∧
      records_removed raw =
        raw.countP (fun r => !(isin_valid_types (strStripUpper r.screening_type))) :=
  fun raw => ⟨cleanData_length raw, records_removed_eq_countP raw⟩

/-- C6: the completion lookup sends the literal 0/1 encodings and the
anomalous s and S to the binary indicator, a row with the s indicator
comes out completed, and every unmapped value, null included, comes out
not eligible. -/
theorem c6_completion_mapping :
    normalize_completion (Cell.str "s") = "completed" ∧
    normalize_completion (Cell.str "S") = "completed" ∧
    normalize_completion (Cell.str "0") = "not completed" ∧
    normalize_completion (Cell.str "0.0") = "not completed" ∧
    normalize_completion (Cell.num 0) = "not completed" ∧
    normalize_completion (Cell.str "1") = "completed" ∧
    normalize_completion (Cell.str "1.0") = "completed" ∧
    normalize_completion (Cell.num 1) = "completed" ∧
    normalize_completion Cell.null = "not eligible" ∧
    (∀ c : Cell, completion_text_map (to_numeric (completion_replace c)) = none →
        normalize_completion c = "not eligible") ∧
    (cleanData [exAnomalousS]).map (fun r => r.screening_completed_ind) = ["completed"] := by
  refine ⟨by decide, by decide, by decide, by decide, by decide, by decide, by decide, by decide,
    by decide, fun c h => ?_, by decide⟩
  unfold normalize_completion
  rw [h]
  rfl

/-- C6 witness: the unmapped-value default applied at a concrete value
the lookup does not map. -/
theorem c6_completion_mapping_witness :
    normalize_completion (Cell.str "N/A") = "not eligible" :=
  c6_completion_mapping.2.2.2.2.2.2.2.2.2.1 (Cell.str "N/A") (by decide)

/-- C7: date coercion is total and strict: every parsed date is a real
calendar date in y-m-d shape, unparsable strings such as N/A and
impossible dates such as 2025-02-30 become the missing-date state with
no error, and a row with unparsable dates comes out with both date
fields empty. -/
theorem c7_date_parsing_total :
    (∀ (c : Cell) (d : Date), to_datetime c = some d → dateValid d = true) ∧
    to_datetime (Cell.str "N/A") = none ∧
    to_datetime (Cell.str "2025-03-01") = some ⟨2025, 3, 1⟩ ∧
    to_datetime (Cell.str "2025-02-30") = none ∧
    to_datetime Cell.null = none ∧
    (cleanData [exBadDates]).map (fun r => (r.screening_date, r.latest_call_date)) =
      [(none, none)] := by
  refine ⟨fun c d h => ?_, by decide, by decide, by decide, by decide, by decide⟩
  cases c with
  | str s => exact parse_date_valid s d h
  | null => exact Option.noConfusion h
  | num n => exact Option.noConfusion h

/-- C7 witness: the calendar-validity direction applied at a concrete
parsable date string. -/
theorem c7_date_parsing_total_witness : dateValid ⟨2025, 3, 1⟩ = true :=
  c7_date_parsing_total.1 (Cell.str "2025-03-01") ⟨2025, 3, 1⟩ (by decide)

/-- C8: a missing input file aborts the job with an error before any
processing, and an existing input always yields the complete cleaned
table as the single output. -/
theorem c8_missing_file_aborts :
    run_job none = Except.error "Raw data file not found" ∧
    ∀ raw : List RawRecord, run_job (some raw) = Except.ok (cleanData raw) :=
  ⟨rfl, fun _ => rfl⟩

/-- C9: the output patient ids are exactly those of the rows that pass
the screening-type filter, so a null patient_id never removes a record:
any input row with an allowed type and a null id contributes a null id
to the output, and the one-row null-id table survives in full. -/
theorem c9_null_patient_id_kept :
    (∀ raw : List RawRecord,
        (cleanData raw).map (fun r => r.patient_id) =
          ((raw.map stripTypeRow).filter (fun r => isin_valid_types r.screening_type)).map
            (fun r => r.patient_id)) ∧
    (∀ (raw : List RawRecord) (r : RawRecord), r ∈ raw → r.patient_id = Cell.null →
        isin_valid_types (strStripUpper r.screening_type) = true →
        Cell.null ∈ (cleanData raw).map (fun r => r.patient_id)) ∧
    cleanData [exNullPid] =
      [⟨Cell.null, Cell.str "BCS", "not eligible", none, none, "not called"⟩] := by
  have hmap : ∀ raw : List RawRecord,
      (cleanData raw).map (fun r => r.patient_id) =
        ((raw.map stripTypeRow).filter (fun r => isin_valid_types r.screening_type)).map
          (fun r => r.patient_id) := by
    intro raw
    rw [cleanData_eq, List.map_map]
    refine List.map_congr_left fun q hq => ?_
    show (fixNotCalled (normalizeRow q)).patient_id = q.patient_id
    rw [fixNotCalled_patient_id]
    rfl
  refine ⟨hmap, fun raw r hr hpid hty => ?_, by decide⟩
  rw [hmap raw]
  have h1 : stripTypeRow r ∈
      (raw.map stripTypeRow).filter (fun x => isin_valid_types x.screening_type) :=
    List.mem_filter.mpr ⟨List.mem_map_of_mem _ hr, hty⟩
  have h2 := List.mem_map_of_mem (fun x : RawRecord => x.patient_id) h1
  simpa [stripTypeRow, hpid] using h2

/-- C9 witness: the null-id membership applied to the concrete one-row
table with a null patient_id and an allowed type. -/
theorem c9_null_patient_id_kept_witness :
    Cell.null ∈ (cleanData [exNullPid]).map (fun r => r.patient_id) :=
  c9_null_patient_id_kept.2.1 [exNullPid] exNullPid (by decide) (by decide) (by decide)

/-- C10: a null screening_type survives strip and upper-case as null,
fails the allow-list, and its record is excised from the table exactly
like a row with a disallowed literal. -/
theorem c10_null_screening_type_removed :
    (∀ c : Cell, c = Cell.null →
        strStripUpper c = Cell.null ∧ isin_valid_types (strStripUpper c) = false) ∧
    (∀ (pre post : List RawRecord) (r : RawRecord), r.screening_type = Cell.null →
        cleanData (pre ++ r :: post) = cleanData (pre ++ post)) ∧
    cleanData [exNullType] = [] ∧
    cleanData [exNullType] = cleanData [exA1C] := by
  refine ⟨fun c hc => by subst hc; exact ⟨rfl, rfl⟩, fun pre post r hr => ?_, by decide, by decide⟩
  have hfalse : isin_valid_types (stripTypeRow r).screening_type = false := by
    simp [stripTypeRow, hr, strStripUpper, isin_valid_types]
  have hfil : ((pre ++ r :: post).map stripTypeRow).filter
        (fun x => isin_valid_types x.screening_type) =
      ((pre ++ post).map stripTypeRow).filter (fun x => isin_valid_types x.screening_type) := by
    simp [List.map_append, List.filter_append, List.filter_cons, hfalse]
  unfold cleanData
  rw [hfil]

/-- C10 witness: the excision equation applied to the concrete one-row
table whose screening_type is null. -/
theorem c10_null_screening_type_removed_witness :
    cleanData ([] ++ exNullType :: []) = cleanData ([] ++ []) :=
  c10_null_screening_type_removed.2.1 [] [] exNullType (by decide)

end Screening
